import Mathlib

/-!
Verification of the tenant resolution, authentication and connection-pooling
subsystem of the vritti api-sdk.

The TypeScript services are shallowly embedded as pure Lean functions:

* `TenantInfo` mirrors `src/database/interfaces/tenant-info.interface.ts`.
* `TenantContextService` (request-scoped context container) is embedded as
  state-passing functions over `Option TenantInfo`.
* `PrimaryDatabaseService.getTenantInfo` / `cacheInfo` (tenant registry with
  TTL cache) is embedded over an explicit registry state, with the Prisma
  `findFirst` query modelled as a filter over a list of backing-store rows
  and the per-entry expiry timer modelled explicitly.
* `TenantDatabaseService` (connection pool) is embedded over an explicit pool
  state; handles are numbered by a fresh counter.  The single `await` inside
  `getDbClient` is modelled by a two-phase small-step system so that
  event-loop interleavings of two overlapping calls can be examined.
* `VrittiAuthGuard.canActivate` is embedded as a function of the request data
  and of the outcomes of the cryptographic token checks (which are opaque
  here), composed with the registry model.

JavaScript truthiness (empty string / zero / null / undefined are falsy) is
modelled explicitly wherever the source branches on it.
-/

namespace ApiSdk

/-- Error classes thrown by the embedded services, mirroring the NestJS
exception classes used in the source (`UnauthorizedException`,
`InternalServerErrorException`, plain `Error`). -/
inductive AppError where
  | unauthorized (msg : String)
  | internalServerError (msg : String)
  | plainError (msg : String)
deriving Repr, DecidableEq

/-- `TenantInfo` from `tenant-info.interface.ts`: the tenant record returned
by the registry.  Optional fields are `Option`s. -/
structure TenantInfo where
  id : String
  subdomain : String
  type : String
  status : String
  schemaName : Option String := none
  databaseName : Option String := none
  databaseHost : Option String := none
  databasePort : Option Nat := none
  databaseUsername : Option String := none
  databasePassword : Option String := none
  databaseSslMode : Option String := none
  connectionPoolSize : Option Nat := none
deriving Repr, DecidableEq

/-! ## TenantContextService (`tenant-context.service.ts`)

The request-scoped field `tenantInfo : TenantInfo | null` is the state.
A `TenantInfo` object is always truthy in JS, so `if (this.tenantInfo)`
is exactly a match on `Option`. -/

/-- `setTenant`: throws a plain `Error` if the context is already populated,
otherwise stores the record.  Returns the outcome together with the state
as it is after the call (a throw leaves the field untouched). -/
def setTenant (st : Option TenantInfo) (info : TenantInfo) :
    Except AppError Unit × Option TenantInfo :=
  match st with
  | some _ => (Except.error (AppError.plainError "Tenant context already set for this request"), st)
  | none => (Except.ok (), some info)

/-- `getTenant`: throws `UnauthorizedException` when nothing was set. -/
def getTenant (st : Option TenantInfo) : Except AppError TenantInfo :=
  match st with
  | none => Except.error (AppError.unauthorized "Tenant context not set")
  | some t => Except.ok t

/-- `hasTenant`: non-throwing existence check. -/
def hasTenant (st : Option TenantInfo) : Bool :=
  st.isSome

/-- `clearTenant`: resets the context to empty. -/
def clearTenant (_st : Option TenantInfo) : Option TenantInfo :=
  none

/-! ## JS helpers

Explicit models of the JavaScript truthiness idioms used by the source. -/

/-- `a || b` on possibly-undefined strings: an empty string is falsy. -/
def jsOrStr (a b : Option String) : Option String :=
  match a with
  | some s => if s == "" then b else some s
  | none => b

/-- `x || undefined` on an optional string: empty string collapses to
`undefined`. -/
def strFalsy (a : Option String) : Option String :=
  jsOrStr a none

/-- `x || undefined` on an optional number: zero collapses to `undefined`. -/
def natFalsy (a : Option Nat) : Option Nat :=
  match a with
  | some n => if n == 0 then none else some n
  | none => none

/-- String interpolation of a possibly-undefined value: JS renders
`undefined` as the literal string "undefined". -/
def jsShow (a : Option String) : String :=
  match a with
  | some s => s
  | none => "undefined"

/-! ## PrimaryDatabaseService (`primary-database.service.ts`)

The registry.  The Prisma call

  `tenant.findFirst({ where: { OR: [{id}, {subdomain}], status: 'ACTIVE' },
                      include: { databaseConfig: true } })`

is modelled as `List.find?` over backing-store rows; the whole query can also
fail (store unreachable / client not initialized), modelled by the query
argument being an `Except`.  The in-memory cache `Map<string, TenantInfo>` is
an association list where `Map.set` is erase-then-cons, and the
`setTimeout`-scheduled expiry of `cacheInfo` is a list of pending timers. -/

/-- A row of the `TenantDatabaseConfig` table joined by the query. -/
structure DbTenantConfig where
  dbSchema : Option String := none
  dbName : Option String := none
  dbHost : Option String := none
  dbPort : Option Nat := none
  dbUsername : Option String := none
  dbPassword : Option String := none
  dbSslMode : Option String := none
  connectionPoolSize : Option Nat := none
deriving Repr, DecidableEq

/-- A row of the `tenant` table in the primary (registry) database. -/
structure DbTenant where
  id : String
  subdomain : String
  dbType : String
  status : String
  databaseConfig : Option DbTenantConfig := none
deriving Repr, DecidableEq

/-- The `where` clause of the registry query:
`OR: [{ id: ident }, { subdomain: ident }], status: 'ACTIVE'`. -/
def tenantMatches (ident : String) (t : DbTenant) : Bool :=
  (t.id == ident || t.subdomain == ident) && t.status == "ACTIVE"

/-- `findFirst` over the backing-store rows. -/
def findFirstActiveTenant (rows : List DbTenant) (ident : String) : Option DbTenant :=
  rows.find? (tenantMatches ident)

/-- Decryption of stored credentials (`decrypt` in the source is the
identity: encryption is delegated elsewhere). -/
def decrypt (s : String) : String := s

/-- Building the `TenantInfo` object from the joined row, with the source's
`|| undefined` falsy collapses and credential decryption. -/
def buildInfo (t : DbTenant) : TenantInfo :=
  { id := t.id
    subdomain := t.subdomain
    type := t.dbType
    status := t.status
    schemaName := strFalsy (t.databaseConfig.bind (fun c => c.dbSchema))
    databaseName := strFalsy (t.databaseConfig.bind (fun c => c.dbName))
    databaseHost := strFalsy (t.databaseConfig.bind (fun c => c.dbHost))
    databasePort := natFalsy (t.databaseConfig.bind (fun c => c.dbPort))
    databaseUsername :=
      (strFalsy (t.databaseConfig.bind (fun c => c.dbUsername))).map decrypt
    databasePassword :=
      (strFalsy (t.databaseConfig.bind (fun c => c.dbPassword))).map decrypt
    databaseSslMode := strFalsy (t.databaseConfig.bind (fun c => c.dbSslMode))
    connectionPoolSize := natFalsy (t.databaseConfig.bind (fun c => c.connectionPoolSize)) }

/-- `Map.get` on an association list. -/
def lookupAssoc {α : Type} (c : List (String × α)) (k : String) : Option α :=
  (c.find? (fun p => p.1 == k)).map Prod.snd

/-- `Map.delete` on an association list. -/
def eraseAssoc {α : Type} (c : List (String × α)) (k : String) :
    List (String × α) :=
  c.filter (fun p => p.1 != k)

/-- `Map.set` on an association list. -/
def setAssoc {α : Type} (c : List (String × α)) (k : String) (v : α) :
    List (String × α) :=
  (k, v) :: eraseAssoc c k

/-- `Map.get` on the tenant cache. -/
def lookupCache (c : List (String × TenantInfo)) (k : String) : Option TenantInfo :=
  lookupAssoc c k

/-- `Map.delete` on the tenant cache. -/
def eraseCacheKey (c : List (String × TenantInfo)) (k : String) :
    List (String × TenantInfo) :=
  eraseAssoc c k

/-- `Map.set` on the tenant cache. -/
def setCacheKey (c : List (String × TenantInfo)) (k : String) (v : TenantInfo) :
    List (String × TenantInfo) :=
  setAssoc c k v

/-- State of `PrimaryDatabaseService`: the cache, the pending expiry timers
(fire time together with the two keys the timer deletes), and a counter of
backing-store queries actually issued. -/
structure RegState where
  cache : List (String × TenantInfo) := []
  timers : List (Int × String × String) := []
  queryCount : Nat := 0
deriving Repr, DecidableEq

/-- `cacheInfo`: insert under both the id key and the subdomain key and
schedule a timer that will delete both keys after the TTL. -/
def cacheInfo (st : RegState) (now ttl : Int) (info : TenantInfo) : RegState :=
  { st with
    cache := setCacheKey (setCacheKey st.cache info.id info) info.subdomain info
    timers := (now + ttl, info.id, info.subdomain) :: st.timers }

/-- Fire every pending timer whose scheduled time has been reached by `t`,
deleting the two keys it holds; keep the rest pending. -/
def fireDueTimers (st : RegState) (t : Int) : RegState :=
  let due := st.timers.filter (fun tr => decide (tr.1 ≤ t))
  { st with
    cache := due.foldl
      (fun c tr => eraseCacheKey (eraseCacheKey c tr.2.1) tr.2.2) st.cache
    timers := st.timers.filter (fun tr => !(decide (tr.1 ≤ t))) }

/-- `getTenantInfo`: cache hit returns immediately; on a miss the
backing-store query runs (`query` is its outcome: `.error` when the store is
unreachable or the client is uninitialized, `.ok rows` otherwise).  A failed
query is caught and rethrown as `InternalServerErrorException`; an absent
tenant is a normal `none` result; a found tenant is built, cached under both
keys with a scheduled expiry, and returned. -/
def getTenantInfo (st : RegState) (query : Except Unit (List DbTenant))
    (ident : String) (now ttl : Int) :
    Except AppError (Option TenantInfo) × RegState :=
  match lookupCache st.cache ident with
  | some cached => (Except.ok (some cached), st)
  | none =>
    match query with
    | Except.error _ =>
      (Except.error (AppError.internalServerError "Failed to resolve tenant"),
        { st with queryCount := st.queryCount + 1 })
    | Except.ok rows =>
      match findFirstActiveTenant rows ident with
      | none => (Except.ok none, { st with queryCount := st.queryCount + 1 })
      | some t =>
        let info := buildInfo t
        (Except.ok (some info),
          cacheInfo { st with queryCount := st.queryCount + 1 } now ttl info)

/-! ## Subdomain parsing and tenant resolution
(`subdomain-parser.util.ts`, `tenant-resolver.service.ts`) -/

/-- JS `String.prototype.split` with a single-character separator, on the
character list: always returns at least one (possibly empty) piece. -/
def splitCharList (c : Char) : List Char → List (List Char)
  | [] => [[]]
  | x :: xs =>
    match splitCharList c xs with
    | [] => [[]]
    | y :: ys => if x = c then [] :: y :: ys else (x :: y) :: ys

/-- JS `s.split(c)` for a one-character separator. -/
def jsSplit (s : String) (c : Char) : List String :=
  (splitCharList c s.data).map String.mk

/-- `arr[0]` on a JS split result (never an empty array); the empty-list
case is unreachable and yields "". -/
def headOrEmpty : List String → String
  | [] => ""
  | x :: _ => x

/-- `extractSubdomain(host)`: strip the port, split on dots, require at
least 3 labels, return the first label.  `host` may be absent (the caller
passes `request.headers?.host || request.hostname`); a missing or empty
host is falsy and yields null.  JS `split` never returns an empty array, so
`parts[0] ?? null` is the (possibly empty) first part. -/
def extractSubdomain (host : Option String) : Option String :=
  match host with
  | none => none
  | some h =>
    if h == "" then none
    else
      let hostname := headOrEmpty (jsSplit h ':')
      if hostname == "" then none
      else
        let parts := jsSplit hostname '.'
        if parts.length < 3 then none
        else some (headOrEmpty parts)

/-- The header data the resolver consults on a request.  Header values are
single strings here (the source collapses arrays to their first element). -/
structure HttpRequest where
  host : Option String := none
  hostname : Option String := none
  xTenantId : Option String := none
  xSubdomain : Option String := none
deriving Repr, DecidableEq

/-- `extractFromHeaders`:
`getHeader('x-tenant-id') || getHeader('x-subdomain') || null`. -/
def extractFromHeaders (req : HttpRequest) : Option String :=
  jsOrStr req.xTenantId (jsOrStr req.xSubdomain none)

/-- `TenantResolverService.resolveTenantIdentifier`: subdomain from
`request.headers?.host || request.hostname` first; if that is falsy
(null or the empty string), fall back to the headers. -/
def resolveTenantIdentifier (req : HttpRequest) : Option String :=
  let host := jsOrStr req.host req.hostname
  let sub := extractSubdomain host
  match sub with
  | some s => if s == "" then extractFromHeaders req else some s
  | none => extractFromHeaders req

/-! ## VrittiAuthGuard (`vritti-auth.guard.ts`)

`canActivate` is embedded as a function of: the `@Public()` / `@Onboarding()`
flags, the extracted access token, the outcome of `jwtService.decode`, the
outcomes of the two cryptographic verifications (opaque here — they either
succeed or throw an `UnauthorizedException`), the extracted refresh token,
the request (fed to the resolver), and the registry outcome for the resolved
identifier.  The surrounding `try/catch` rethrows `UnauthorizedException`
unchanged and converts every other error into
`UnauthorizedException('Authentication failed')`. -/

/-- The claims of a decoded token that the guard inspects. -/
structure DecodedToken where
  userId : Option String := none
  tokenType : Option String := none
deriving Repr, DecidableEq

/-- Inputs to one `canActivate` evaluation. -/
structure GuardInput where
  isPublic : Bool := false
  isOnboarding : Bool := false
  accessToken : Option String := none
  decoded : Option DecodedToken := none
  verifyAccess : Except AppError DecodedToken := Except.error (AppError.unauthorized "Invalid access token")
  refreshToken : Option String := none
  verifyRefresh : Except AppError Unit := Except.error (AppError.unauthorized "Invalid refresh token")
  request : HttpRequest := {}

/-- Outcome of `canActivate`: pass, or throw. -/
inductive GuardResult where
  | pass
  | fail (e : AppError)
deriving Repr, DecidableEq

/-- The guard body before the surrounding catch block. -/
def canActivateInner (inp : GuardInput)
    (registryResult : Except AppError (Option TenantInfo)) : GuardResult :=
  if inp.isPublic then GuardResult.pass
  else
    match inp.accessToken with
    | none => GuardResult.fail (AppError.unauthorized "Access token not found")
    | some _ =>
      match inp.decoded with
      | none => GuardResult.fail (AppError.unauthorized "Invalid token format")
      | some dec =>
        if inp.isOnboarding then
          if dec.tokenType ≠ some "onboarding" then
            GuardResult.fail
              (AppError.unauthorized "This endpoint requires an onboarding token")
          else
            match inp.verifyAccess with
            | Except.error e => GuardResult.fail e
            | Except.ok _ => GuardResult.pass
        else
          if dec.tokenType == some "onboarding" then
            GuardResult.fail
              (AppError.unauthorized "Onboarding tokens cannot access this endpoint")
          else
            match inp.verifyAccess with
            | Except.error e => GuardResult.fail e
            | Except.ok _ =>
              match inp.refreshToken with
              | none => GuardResult.fail (AppError.unauthorized "Refresh token not found")
              | some _ =>
                match inp.verifyRefresh with
                | Except.error e => GuardResult.fail e
                | Except.ok _ =>
                  match resolveTenantIdentifier inp.request with
                  | none =>
                    GuardResult.fail (AppError.unauthorized "Tenant identifier not found")
                  | some ident =>
                    if ident == "cloud" then GuardResult.pass
                    else
                      match registryResult with
                      | Except.error e => GuardResult.fail e
                      | Except.ok none =>
                        GuardResult.fail (AppError.unauthorized "Invalid tenant")
                      | Except.ok (some info) =>
                        if info.status ≠ "ACTIVE" then
                          GuardResult.fail
                            (AppError.unauthorized ("Tenant is " ++ info.status))
                        else GuardResult.pass

/-- The catch block: `UnauthorizedException` is rethrown as-is, everything
else becomes `UnauthorizedException('Authentication failed')`. -/
def normalizeGuardError : GuardResult → GuardResult
  | GuardResult.pass => GuardResult.pass
  | GuardResult.fail (AppError.unauthorized m) =>
      GuardResult.fail (AppError.unauthorized m)
  | GuardResult.fail _ =>
      GuardResult.fail (AppError.unauthorized "Authentication failed")

/-- `VrittiAuthGuard.canActivate`, guard body plus catch block, with the
registry outcome supplied as an argument. -/
def canActivate (inp : GuardInput)
    (registryResult : Except AppError (Option TenantInfo)) : GuardResult :=
  normalizeGuardError (canActivateInner inp registryResult)

/-- Steps 8–11 of the guard with the real registry model inlined: resolve
the identifier, special-case `"cloud"`, call `getTenantInfo`, check the
record exists and is ACTIVE.  Returns the outcome and the registry state. -/
def guardTenantSteps (req : HttpRequest) (st : RegState)
    (query : Except Unit (List DbTenant)) (now ttl : Int) :
    GuardResult × RegState :=
  match resolveTenantIdentifier req with
  | none => (GuardResult.fail (AppError.unauthorized "Tenant identifier not found"), st)
  | some ident =>
    if ident == "cloud" then (GuardResult.pass, st)
    else
      match getTenantInfo st query ident now ttl with
      | (Except.error e, st1) => (GuardResult.fail e, st1)
      | (Except.ok none, st1) =>
        (GuardResult.fail (AppError.unauthorized "Invalid tenant"), st1)
      | (Except.ok (some info), st1) =>
        if info.status ≠ "ACTIVE" then
          (GuardResult.fail (AppError.unauthorized ("Tenant is " ++ info.status)), st1)
        else (GuardResult.pass, st1)

/-- End-to-end `canActivate` against the real registry model
(`getTenantInfo` over registry state `st` and a backing-store query
outcome), catch block included.  The registry is consulted only when the
guard actually reaches step 10. -/
def canActivateFull (inp : GuardInput) (st : RegState)
    (query : Except Unit (List DbTenant)) (now ttl : Int) :
    GuardResult × RegState :=
  if inp.isPublic then (GuardResult.pass, st)
  else
    match inp.accessToken with
    | none =>
      (normalizeGuardError (GuardResult.fail (AppError.unauthorized "Access token not found")), st)
    | some _ =>
      match inp.decoded with
      | none =>
        (normalizeGuardError (GuardResult.fail (AppError.unauthorized "Invalid token format")), st)
      | some dec =>
        if inp.isOnboarding then
          if dec.tokenType ≠ some "onboarding" then
            (normalizeGuardError (GuardResult.fail
              (AppError.unauthorized "This endpoint requires an onboarding token")), st)
          else
            match inp.verifyAccess with
            | Except.error e => (normalizeGuardError (GuardResult.fail e), st)
            | Except.ok _ => (GuardResult.pass, st)
        else
          if dec.tokenType == some "onboarding" then
            (normalizeGuardError (GuardResult.fail
              (AppError.unauthorized "Onboarding tokens cannot access this endpoint")), st)
          else
            match inp.verifyAccess with
            | Except.error e => (normalizeGuardError (GuardResult.fail e), st)
            | Except.ok _ =>
              match inp.refreshToken with
              | none =>
                (normalizeGuardError (GuardResult.fail
                  (AppError.unauthorized "Refresh token not found")), st)
              | some _ =>
                match inp.verifyRefresh with
                | Except.error e => (normalizeGuardError (GuardResult.fail e), st)
                | Except.ok _ =>
                  match guardTenantSteps inp.request st query now ttl with
                  | (r, st1) => (normalizeGuardError r, st1)

/-! ## TenantDatabaseService (`tenant-database.service.ts`)

The connection pool.  Connections are opaque handles, numbered by a fresh
counter so that distinct builds yield distinct handles.  The two maps
`clients : Map<cacheKey, DbClient>` and `clientLastUsed : Map<cacheKey, number>`
are association lists. -/

/-- `buildCacheKey`: the template string
`` `${tenant.type}:${tenant.databaseName}@${tenant.databaseHost}` ``.
An undefined field interpolates as the literal "undefined". -/
def buildCacheKey (t : TenantInfo) : String :=
  t.type ++ ":" ++ jsShow t.databaseName ++ "@" ++ jsShow t.databaseHost

/-- State of `TenantDatabaseService`: the two maps plus a fresh-handle
counter standing for the allocation of new client objects. -/
structure PoolState where
  clients : List (String × Nat) := []
  clientLastUsed : List (String × Int) := []
  nextHandle : Nat := 0
deriving Repr, DecidableEq

/-- `getDbClient` with no interleaving (the build completes before any other
call runs): compute the key from the context's tenant record; on a hit touch
`lastUsedAt` and return the cached handle; on a miss build a fresh client,
store it and return it.  `now` is `Date.now()` at the call. -/
def getDbClient (st : PoolState) (tenant : TenantInfo) (now : Int) :
    Nat × PoolState :=
  let k := buildCacheKey tenant
  match lookupAssoc st.clients k with
  | some h =>
    (h, { st with clientLastUsed := setAssoc st.clientLastUsed k now })
  | none =>
    (st.nextHandle,
      { clients := setAssoc st.clients k st.nextHandle
        clientLastUsed := setAssoc st.clientLastUsed k now
        nextHandle := st.nextHandle + 1 })

/-- Whether `cleanupIdleConnections` evicts key `k`: the loop over
`clientLastUsed` removes an entry iff `now - lastUsed > maxIdle` and a
client for the key is present. -/
def shouldEvict (st : PoolState) (now maxIdle : Int) (k : String) : Bool :=
  match lookupAssoc st.clientLastUsed k with
  | some lastUsed =>
    decide (now - lastUsed > maxIdle) && (lookupAssoc st.clients k).isSome
  | none => false

/-- `cleanupIdleConnections`: the sweep deletes every evicted key from both
maps (the `$disconnect` of the evicted client is fire-and-forget and its
failure is only logged, so it does not appear in the state). -/
def cleanupIdleConnections (st : PoolState) (now maxIdle : Int) : PoolState :=
  { st with
    clients := st.clients.filter (fun p => !(shouldEvict st now maxIdle p.1))
    clientLastUsed :=
      st.clientLastUsed.filter (fun p => !(shouldEvict st now maxIdle p.1)) }

/-- `getPoolStats`. -/
def getPoolStats (st : PoolState) : Nat × List String :=
  (st.clients.length, st.clients.map Prod.fst)

/-! ### Event-loop interleaving of two `getDbClient` calls

`getDbClient` suspends exactly once, at `await this.createDbClient(tenant)`,
between the cache check and the `clients.set`.  Everything before the await
(cache lookup, and on a hit the touch and return) is one atomic segment;
everything after it (store the built client, touch, return) is another.
Two concurrent calls are two tasks stepped by an explicit schedule. -/

/-- Progress of one `getDbClient` call. -/
inductive CallPhase where
  | notStarted
  | awaitingBuild (k : String)
  | finished (handle : Nat)
deriving Repr, DecidableEq

/-- System state: the shared pool plus both tasks' phases and a count of
connections actually created. -/
structure TwoCallState where
  pool : PoolState := {}
  taskA : CallPhase := CallPhase.notStarted
  taskB : CallPhase := CallPhase.notStarted
  created : Nat := 0
deriving Repr, DecidableEq

/-- Run one atomic segment of one call. -/
def stepCall (pool : PoolState) (tenant : TenantInfo) (now : Int) :
    CallPhase → CallPhase × PoolState × Nat
  | CallPhase.notStarted =>
    let k := buildCacheKey tenant
    (match lookupAssoc pool.clients k with
     | some h =>
       (CallPhase.finished h,
         { pool with clientLastUsed := setAssoc pool.clientLastUsed k now }, 0)
     | none => (CallPhase.awaitingBuild k, pool, 0))
  | CallPhase.awaitingBuild k =>
    (CallPhase.finished pool.nextHandle,
      { clients := setAssoc pool.clients k pool.nextHandle
        clientLastUsed := setAssoc pool.clientLastUsed k now
        nextHandle := pool.nextHandle + 1 }, 1)
  | CallPhase.finished h => (CallPhase.finished h, pool, 0)

/-- Step the chosen task (`false` = A, `true` = B). -/
def stepSystem (tenantA tenantB : TenantInfo) (now : Int)
    (st : TwoCallState) (who : Bool) : TwoCallState :=
  if who then
    match stepCall st.pool tenantB now st.taskB with
    | (ph, pool1, c) => { st with pool := pool1, taskB := ph, created := st.created + c }
  else
    match stepCall st.pool tenantA now st.taskA with
    | (ph, pool1, c) => { st with pool := pool1, taskA := ph, created := st.created + c }

/-- Run a schedule (a list of task choices). -/
def runSchedule (tenantA tenantB : TenantInfo) (now : Int)
    (st : TwoCallState) (sched : List Bool) : TwoCallState :=
  sched.foldl (stepSystem tenantA tenantB now) st

/-! ## Association-list lemmas -/

lemma find?_filter_key {α : Type} (c : List (String × α)) (k : String) (f : String → Bool) :
    ((c.filter (fun p => f p.1)).find? (fun p => p.1 == k)) =
      if f k then c.find? (fun p => p.1 == k) else none := by
  induction c with
  | nil => simp
  | cons a rest ih =>
    by_cases hf : f a.1
    · by_cases hk : a.1 = k
      · subst hk
        simp [List.filter_cons, hf, List.find?]
      · have hbk : (a.1 == k) = false := beq_false_of_ne hk
        simp [List.filter_cons, hf, List.find?, hbk, ih]
    · by_cases hk : a.1 = k
      · subst hk
        simp only [List.filter_cons, Bool.not_eq_true] at hf ⊢
        simp [hf, ih]
      · have hbk : (a.1 == k) = false := beq_false_of_ne hk
        simp only [List.filter_cons] at *
        simp [hf, List.find?, hbk, ih]

lemma lookupAssoc_filter {α : Type} (c : List (String × α)) (k : String) (f : String → Bool) :
    lookupAssoc (c.filter (fun p => f p.1)) k =
      if f k then lookupAssoc c k else none := by
  simp only [lookupAssoc, find?_filter_key]
  split <;> rfl

lemma lookupAssoc_erase {α : Type} (c : List (String × α)) (k k' : String) :
    lookupAssoc (eraseAssoc c k') k = if k ≠ k' then lookupAssoc c k else none := by
  have h := lookupAssoc_filter c k (fun s => s != k')
  simp only [eraseAssoc]
  rw [h]
  by_cases hk : k = k' <;> simp [hk]

lemma lookupAssoc_set_self {α : Type} (c : List (String × α)) (k : String) (v : α) :
    lookupAssoc (setAssoc c k v) k = some v := by
  simp [lookupAssoc, setAssoc, List.find?]

lemma lookupAssoc_set_ne {α : Type} (c : List (String × α)) (k k' : String) (v : α)
    (h : k ≠ k') : lookupAssoc (setAssoc c k' v) k = lookupAssoc c k := by
  have hb : (k' == k) = false := beq_false_of_ne (Ne.symm h)
  simp only [setAssoc, lookupAssoc, List.find?, hb]
  have := lookupAssoc_erase c k k'
  simp only [lookupAssoc] at this
  simp [this, h]

/-! ## Claim theorems -/

/-- Claim C3: for every context scope and every pair of records, a second
`setTenant` without an intervening clear fails with the same error
(`Error('Tenant context already set for this request')`) whether the records
are equal or different, and the stored record remains the first one. -/
theorem setTenant_write_once (r1 r2 : TenantInfo) :
    setTenant none r1 = (Except.ok (), some r1) ∧
    (setTenant (setTenant none r1).2 r2).1 =
      Except.error (AppError.plainError "Tenant context already set for this request") ∧
    (setTenant (setTenant none r1).2 r2).2 = some r1 := by
  refine ⟨rfl, rfl, rfl⟩

/-! ### Registry unfolding lemmas -/

lemma getTenantInfo_hit (st : RegState) (query : Except Unit (List DbTenant))
    (ident : String) (now ttl : Int) (info : TenantInfo)
    (h : lookupCache st.cache ident = some info) :
    getTenantInfo st query ident now ttl = (Except.ok (some info), st) := by
  simp only [getTenantInfo, h]

lemma getTenantInfo_miss_found (st : RegState) (rows : List DbTenant)
    (ident : String) (now ttl : Int) (t : DbTenant)
    (hmiss : lookupCache st.cache ident = none)
    (hfind : findFirstActiveTenant rows ident = some t) :
    getTenantInfo st (Except.ok rows) ident now ttl =
      (Except.ok (some (buildInfo t)),
        cacheInfo { st with queryCount := st.queryCount + 1 } now ttl (buildInfo t)) := by
  simp only [getTenantInfo, hmiss, hfind]

lemma getTenantInfo_miss_notfound (st : RegState) (rows : List DbTenant)
    (ident : String) (now ttl : Int)
    (hmiss : lookupCache st.cache ident = none)
    (hfind : findFirstActiveTenant rows ident = none) :
    getTenantInfo st (Except.ok rows) ident now ttl =
      (Except.ok none, { st with queryCount := st.queryCount + 1 }) := by
  simp only [getTenantInfo, hmiss, hfind]

lemma getTenantInfo_miss_error (st : RegState) (ident : String) (now ttl : Int)
    (hmiss : lookupCache st.cache ident = none) :
    getTenantInfo st (Except.error ()) ident now ttl =
      (Except.error (AppError.internalServerError "Failed to resolve tenant"),
        { st with queryCount := st.queryCount + 1 }) := by
  simp only [getTenantInfo, hmiss]

lemma lookupCache_cacheInfo_subdomain (st : RegState) (now ttl : Int) (info : TenantInfo) :
    lookupCache (cacheInfo st now ttl info).cache info.subdomain = some info := by
  simp only [cacheInfo, lookupCache, setCacheKey]
  exact lookupAssoc_set_self _ _ _

lemma lookupCache_cacheInfo_id (st : RegState) (now ttl : Int) (info : TenantInfo) :
    lookupCache (cacheInfo st now ttl info).cache info.id = some info := by
  simp only [cacheInfo, lookupCache, setCacheKey]
  by_cases h : info.id = info.subdomain
  · rw [h]
    exact lookupAssoc_set_self _ _ _
  · rw [lookupAssoc_set_ne _ _ _ _ h]
    exact lookupAssoc_set_self _ _ _

lemma fireDueTimers_single_not_due (st : RegState) (e : Int × String × String)
    (t1 : Int) (h : st.timers = [e]) (hnd : ¬ (e.1 ≤ t1)) :
    fireDueTimers st t1 = st := by
  simp [fireDueTimers, h, hnd]
  rw [← h]

/-- Claim C5: after a resolve that hit the backing store, the record is
cached under both its id and its subdomain key with an expiry timer
scheduled at `now + ttl`; a second resolve by either key at any time
strictly before the expiry (all due timers having fired) is a cache hit: it
returns the identical record, leaves the state untouched, and issues no
second backing-store query (`queryCount` unchanged). -/
theorem registry_cache_ttl_hit (st0 : RegState) (rows : List DbTenant)
    (ident k : String) (now ttl t1 : Int) (t : DbTenant)
    (query2 : Except Unit (List DbTenant))
    (hmiss : lookupCache st0.cache ident = none)
    (htimers : st0.timers = [])
    (hfind : findFirstActiveTenant rows ident = some t)
    (ht1 : t1 < now + ttl)
    (hk : k = (buildInfo t).id ∨ k = (buildInfo t).subdomain) :
    (getTenantInfo st0 (Except.ok rows) ident now ttl).1 =
      Except.ok (some (buildInfo t)) ∧
    lookupCache (getTenantInfo st0 (Except.ok rows) ident now ttl).2.cache
      (buildInfo t).id = some (buildInfo t) ∧
    lookupCache (getTenantInfo st0 (Except.ok rows) ident now ttl).2.cache
      (buildInfo t).subdomain = some (buildInfo t) ∧
    (getTenantInfo st0 (Except.ok rows) ident now ttl).2.timers =
      [(now + ttl, (buildInfo t).id, (buildInfo t).subdomain)] ∧
    getTenantInfo
        (fireDueTimers (getTenantInfo st0 (Except.ok rows) ident now ttl).2 t1)
        query2 k t1 ttl =
      (Except.ok (some (buildInfo t)),
        fireDueTimers (getTenantInfo st0 (Except.ok rows) ident now ttl).2 t1) ∧
    (getTenantInfo
        (fireDueTimers (getTenantInfo st0 (Except.ok rows) ident now ttl).2 t1)
        query2 k t1 ttl).2.queryCount =
      (getTenantInfo st0 (Except.ok rows) ident now ttl).2.queryCount := by
  have hrun := getTenantInfo_miss_found st0 rows ident now ttl t hmiss hfind
  rw [hrun]
  have htm : (cacheInfo { st0 with queryCount := st0.queryCount + 1 } now ttl
      (buildInfo t)).timers =
      [(now + ttl, (buildInfo t).id, (buildInfo t).subdomain)] := by
    simp [cacheInfo, htimers]
  have hfire : fireDueTimers
      (cacheInfo { st0 with queryCount := st0.queryCount + 1 } now ttl (buildInfo t)) t1 =
      cacheInfo { st0 with queryCount := st0.queryCount + 1 } now ttl (buildInfo t) := by
    apply fireDueTimers_single_not_due _ _ _ htm
    simp only []
    omega
  rw [hfire]
  have hlid := lookupCache_cacheInfo_id
    { st0 with queryCount := st0.queryCount + 1 } now ttl (buildInfo t)
  have hlsub := lookupCache_cacheInfo_subdomain
    { st0 with queryCount := st0.queryCount + 1 } now ttl (buildInfo t)
  have hhit : getTenantInfo
      (cacheInfo { st0 with queryCount := st0.queryCount + 1 } now ttl (buildInfo t))
      query2 k t1 ttl =
      (Except.ok (some (buildInfo t)),
        cacheInfo { st0 with queryCount := st0.queryCount + 1 } now ttl (buildInfo t)) := by
    apply getTenantInfo_hit
    rcases hk with hk | hk
    · rw [hk]; exact hlid
    · rw [hk]; exact hlsub
  exact ⟨rfl, hlid, hlsub, htm, hhit, by rw [hhit]⟩

/-- A backing-store row used to instantiate the registry theorems. -/
def sampleActiveRow : DbTenant :=
  { id := "t1", subdomain := "acme", dbType := "SHARED", status := "ACTIVE",
    databaseConfig := some { dbSchema := some "s1" } }

/-- Witness for C5: concrete run — resolve "acme" against a one-row store at
time 0 with the default 300000 ms TTL, then resolve by the id key "t1" at
time 299999: a cache hit returning the identical record with no state
change. -/
theorem registry_cache_ttl_hit_witness :
    getTenantInfo
        (fireDueTimers
          (getTenantInfo {} (Except.ok [sampleActiveRow]) "acme" 0 300000).2 299999)
        (Except.ok []) "t1" 299999 300000 =
      (Except.ok (some (buildInfo sampleActiveRow)),
        fireDueTimers
          (getTenantInfo {} (Except.ok [sampleActiveRow]) "acme" 0 300000).2 299999) :=
  (registry_cache_ttl_hit {} [sampleActiveRow] "acme" "t1" 0 300000 299999
    sampleActiveRow (Except.ok []) rfl rfl rfl (by decide) (Or.inl rfl)).2.2.2.2.1

/-- Claim C6: on a cache miss, an identifier with no matching active tenant
yields a normal `none` result (not an exception), while an infrastructure
failure of the backing-store query yields
`InternalServerErrorException('Failed to resolve tenant')`; the two
outcomes are distinct. -/
theorem registry_notfound_vs_error (st : RegState) (rows : List DbTenant)
    (ident : String) (now ttl : Int)
    (hmiss : lookupCache st.cache ident = none)
    (hfind : findFirstActiveTenant rows ident = none) :
    (getTenantInfo st (Except.ok rows) ident now ttl).1 = Except.ok none ∧
    (getTenantInfo st (Except.error ()) ident now ttl).1 =
      Except.error (AppError.internalServerError "Failed to resolve tenant") ∧
    (Except.ok none : Except AppError (Option TenantInfo)) ≠
      Except.error (AppError.internalServerError "Failed to resolve tenant") := by
  rw [getTenantInfo_miss_notfound st rows ident now ttl hmiss hfind,
      getTenantInfo_miss_error st ident now ttl hmiss]
  exact ⟨rfl, rfl, by simp⟩

/-- Witness for C6: the unknown identifier "nope" against an empty store. -/
theorem registry_notfound_vs_error_witness :
    (getTenantInfo {} (Except.ok []) "nope" 0 300000).1 = Except.ok none ∧
    (getTenantInfo {} (Except.error ()) "nope" 0 300000).1 =
      Except.error (AppError.internalServerError "Failed to resolve tenant") ∧
    (Except.ok none : Except AppError (Option TenantInfo)) ≠
      Except.error (AppError.internalServerError "Failed to resolve tenant") :=
  registry_notfound_vs_error {} [] "nope" 0 300000 rfl rfl

/-- Every record in the registry cache has status ACTIVE. -/
def cacheAllActive (st : RegState) : Prop :=
  ∀ p ∈ st.cache, p.2.status = "ACTIVE"

lemma mem_setAssoc {α : Type} {p : String × α} {c : List (String × α)}
    {k : String} {v : α} (h : p ∈ setAssoc c k v) : p = (k, v) ∨ p ∈ c := by
  simp only [setAssoc, eraseAssoc, List.mem_cons] at h
  rcases h with h | h
  · exact Or.inl h
  · exact Or.inr (List.mem_of_mem_filter h)

lemma status_of_findFirst {rows : List DbTenant} {ident : String} {t : DbTenant}
    (h : findFirstActiveTenant rows ident = some t) : t.status = "ACTIVE" := by
  have hp := List.find?_some h
  simp only [tenantMatches, Bool.and_eq_true, beq_iff_eq] at hp
  exact hp.2

lemma mem_of_lookupAssoc {α : Type} {c : List (String × α)} {k : String} {v : α}
    (h : lookupAssoc c k = some v) : ∃ k', (k', v) ∈ c := by
  simp only [lookupAssoc, Option.map_eq_some'] at h
  obtain ⟨p, hp, hv⟩ := h
  refine ⟨p.1, ?_⟩
  have hm := List.mem_of_find?_eq_some hp
  have hpv : (p.1, v) = p := by
    cases p
    cases hv
    rfl
  rw [hpv]
  exact hm

/-- Claim C10: if every cached record has status ACTIVE (true from startup,
since the cache begins empty and only query results are inserted), then any
record returned by `getTenantInfo` — fresh or cached — has status ACTIVE,
and the invariant is preserved by the call. -/
theorem registry_only_active (st : RegState) (query : Except Unit (List DbTenant))
    (ident : String) (now ttl : Int) (hinv : cacheAllActive st) :
    (∀ info, (getTenantInfo st query ident now ttl).1 = Except.ok (some info) →
      info.status = "ACTIVE") ∧
    cacheAllActive (getTenantInfo st query ident now ttl).2 := by
  rcases hcc : lookupCache st.cache ident with _ | cached
  · rcases query with u | rows
    · cases u
      rw [getTenantInfo_miss_error st ident now ttl hcc]
      constructor
      · intro info h
        exact absurd h (by simp)
      · intro p hp
        exact hinv p hp
    · rcases hf : findFirstActiveTenant rows ident with _ | t
      · rw [getTenantInfo_miss_notfound st rows ident now ttl hcc hf]
        constructor
        · intro info h
          exact absurd h (by simp)
        · intro p hp
          exact hinv p hp
      · rw [getTenantInfo_miss_found st rows ident now ttl t hcc hf]
        have hact : (buildInfo t).status = "ACTIVE" := status_of_findFirst hf
        constructor
        · intro info h
          have hbi : buildInfo t = info := by simpa using h
          rw [← hbi]
          exact hact
        · intro p hp
          simp only [cacheInfo, setCacheKey] at hp
          rcases mem_setAssoc hp with h1 | h1
          · rw [h1]; exact hact
          · rcases mem_setAssoc h1 with h2 | h2
            · rw [h2]; exact hact
            · exact hinv p h2
  · rw [getTenantInfo_hit st query ident now ttl cached hcc]
    constructor
    · intro info h
      have hci : cached = info := by simpa using h
      subst hci
      obtain ⟨k', hk'⟩ := mem_of_lookupAssoc (c := st.cache) (k := ident) hcc
      exact hinv (k', cached) hk'
    · intro p hp
      exact hinv p hp

/-- Witness for C10: a fresh resolve of "acme" from the empty cache returns
an ACTIVE record and preserves the all-ACTIVE cache invariant. -/
theorem registry_only_active_witness :
    (buildInfo sampleActiveRow).status = "ACTIVE" ∧
    cacheAllActive (getTenantInfo {} (Except.ok [sampleActiveRow]) "acme" 0 300000).2 :=
  ⟨(registry_only_active {} (Except.ok [sampleActiveRow]) "acme" 0 300000
      (fun _ hp => nomatch hp)).1 (buildInfo sampleActiveRow) rfl,
   (registry_only_active {} (Except.ok [sampleActiveRow]) "acme" 0 300000
      (fun _ hp => nomatch hp)).2⟩

/-! ### Connection-pool lemmas -/

lemma getDbClient_hit (st : PoolState) (t : TenantInfo) (now : Int) (h : Nat)
    (hl : lookupAssoc st.clients (buildCacheKey t) = some h) :
    getDbClient st t now =
      (h, { st with
        clientLastUsed := setAssoc st.clientLastUsed (buildCacheKey t) now }) := by
  simp only [getDbClient, hl]

lemma getDbClient_miss (st : PoolState) (t : TenantInfo) (now : Int)
    (hl : lookupAssoc st.clients (buildCacheKey t) = none) :
    getDbClient st t now =
      (st.nextHandle,
        { clients := setAssoc st.clients (buildCacheKey t) st.nextHandle
          clientLastUsed := setAssoc st.clientLastUsed (buildCacheKey t) now
          nextHandle := st.nextHandle + 1 }) := by
  simp only [getDbClient, hl]

/-- Tenants used to instantiate the pool theorems: two distinct tenants with
identical connection coordinates, and one with a different database name. -/
def tenDedicated1 : TenantInfo :=
  { id := "t1", subdomain := "acme", type := "DEDICATED", status := "ACTIVE",
    databaseName := some "db1", databaseHost := some "h1" }

def tenDedicated2 : TenantInfo :=
  { id := "t2", subdomain := "bcme", type := "DEDICATED", status := "ACTIVE",
    databaseName := some "db1", databaseHost := some "h1" }

def tenDedicated3 : TenantInfo :=
  { id := "t3", subdomain := "ccme", type := "DEDICATED", status := "ACTIVE",
    databaseName := some "db2", databaseHost := some "h1" }

/-- Claim C7: the cache key depends only on isolation type, database name
and database host (so identical coordinates always give the same key);
two sequential acquires whose records produce the same key return the same
handle (the second is a cache hit); acquires for two distinct cold keys
return distinct handles. -/
theorem connection_key_reuse_spec :
    (∀ t1 t2 : TenantInfo, t1.type = t2.type →
      t1.databaseName = t2.databaseName → t1.databaseHost = t2.databaseHost →
      buildCacheKey t1 = buildCacheKey t2) ∧
    (∀ (st : PoolState) (t1 t2 : TenantInfo) (n1 n2 : Int),
      buildCacheKey t2 = buildCacheKey t1 →
      (getDbClient (getDbClient st t1 n1).2 t2 n2).1 = (getDbClient st t1 n1).1) ∧
    (∀ (st : PoolState) (t1 t2 : TenantInfo) (n1 n2 : Int),
      buildCacheKey t1 ≠ buildCacheKey t2 →
      lookupAssoc st.clients (buildCacheKey t1) = none →
      lookupAssoc st.clients (buildCacheKey t2) = none →
      (getDbClient (getDbClient st t1 n1).2 t2 n2).1 ≠ (getDbClient st t1 n1).1) := by
  refine ⟨?_, ?_, ?_⟩
  · intro t1 t2 hty hdb hho
    simp only [buildCacheKey, hty, hdb, hho]
  · intro st t1 t2 n1 n2 hkey
    rcases hl : lookupAssoc st.clients (buildCacheKey t1) with _ | h
    · rw [getDbClient_miss st t1 n1 hl]
      rw [getDbClient_hit _ t2 n2 st.nextHandle (by rw [hkey]; exact lookupAssoc_set_self _ _ _)]
    · rw [getDbClient_hit st t1 n1 h hl]
      rw [getDbClient_hit _ t2 n2 h (by rw [hkey]; exact hl)]
  · intro st t1 t2 n1 n2 hne hl1 hl2
    rw [getDbClient_miss st t1 n1 hl1]
    rw [getDbClient_miss _ t2 n2
      (by rw [lookupAssoc_set_ne _ _ _ _ (Ne.symm hne)]; exact hl2)]
    simp

/-- Witness for C7: concrete instances of all three conjuncts — identical
coordinates of two distinct tenants give one key; reacquiring gives the
cached handle; two cold keys give different handles. -/
theorem connection_key_reuse_witness :
    buildCacheKey tenDedicated1 = buildCacheKey tenDedicated2 ∧
    (getDbClient (getDbClient {} tenDedicated1 3).2 tenDedicated2 7).1 =
      (getDbClient {} tenDedicated1 3).1 ∧
    (getDbClient (getDbClient {} tenDedicated1 3).2 tenDedicated3 7).1 ≠
      (getDbClient {} tenDedicated1 3).1 :=
  ⟨connection_key_reuse_spec.1 tenDedicated1 tenDedicated2 rfl rfl rfl,
   connection_key_reuse_spec.2.1 {} tenDedicated1 tenDedicated2 3 7 rfl,
   connection_key_reuse_spec.2.2 {} tenDedicated1 tenDedicated3 3 7
     (by decide) rfl rfl⟩

/-- Claim C8: the sweep removes a pool entry from both the client map and
the last-used map exactly when `now - lastUsedAt > maxIdle`; an entry used
within the threshold survives unchanged in both maps. -/
theorem idle_eviction_exact (st : PoolState) (now maxIdle : Int) (k : String)
    (h : Nat) (lu : Int)
    (hc : lookupAssoc st.clients k = some h)
    (hl : lookupAssoc st.clientLastUsed k = some lu) :
    ((now - lu > maxIdle) →
      lookupAssoc (cleanupIdleConnections st now maxIdle).clients k = none ∧
      lookupAssoc (cleanupIdleConnections st now maxIdle).clientLastUsed k = none) ∧
    (¬(now - lu > maxIdle) →
      lookupAssoc (cleanupIdleConnections st now maxIdle).clients k = some h ∧
      lookupAssoc (cleanupIdleConnections st now maxIdle).clientLastUsed k = some lu) := by
  have hse : shouldEvict st now maxIdle k = decide (now - lu > maxIdle) := by
    simp [shouldEvict, hl, hc]
  have hfc := lookupAssoc_filter st.clients k (fun s => !(shouldEvict st now maxIdle s))
  have hfl := lookupAssoc_filter st.clientLastUsed k (fun s => !(shouldEvict st now maxIdle s))
  constructor
  · intro hidle
    have hevict : shouldEvict st now maxIdle k = true := by
      rw [hse]; exact decide_eq_true hidle
    constructor
    · show lookupAssoc (st.clients.filter _) k = none
      rw [hfc, hevict]
      simp
    · show lookupAssoc (st.clientLastUsed.filter _) k = none
      rw [hfl, hevict]
      simp
  · intro hfresh
    have hkeep : shouldEvict st now maxIdle k = false := by
      rw [hse]; exact decide_eq_false hfresh
    constructor
    · show lookupAssoc (st.clients.filter _) k = some h
      rw [hfc, hkeep]
      simpa using hc
    · show lookupAssoc (st.clientLastUsed.filter _) k = some lu
      rw [hfl, hkeep]
      simpa using hl

/-- Witness for C8: a connection acquired at t=3 with a 300000 ms threshold
is evicted by a sweep at t=300004 (both maps) and survives unchanged in
both maps under a sweep at t=300003. -/
theorem idle_eviction_witness :
    (lookupAssoc (cleanupIdleConnections (getDbClient {} tenDedicated1 3).2
        300004 300000).clients (buildCacheKey tenDedicated1) = none ∧
      lookupAssoc (cleanupIdleConnections (getDbClient {} tenDedicated1 3).2
        300004 300000).clientLastUsed (buildCacheKey tenDedicated1) = none) ∧
    (lookupAssoc (cleanupIdleConnections (getDbClient {} tenDedicated1 3).2
        300003 300000).clients (buildCacheKey tenDedicated1) = some 0 ∧
      lookupAssoc (cleanupIdleConnections (getDbClient {} tenDedicated1 3).2
        300003 300000).clientLastUsed (buildCacheKey tenDedicated1) = some 3) :=
  ⟨(idle_eviction_exact (getDbClient {} tenDedicated1 3).2 300004 300000
      (buildCacheKey tenDedicated1) 0 3 rfl rfl).1 (by decide),
   (idle_eviction_exact (getDbClient {} tenDedicated1 3).2 300003 300000
      (buildCacheKey tenDedicated1) 0 3 rfl rfl).2 (by decide)⟩

/-- Claim C2 (refuted by this evaluation): under the event-loop
interleaving in which both overlapping `getDbClient` calls for the same
cold key pass the cache check before either build completes
(schedule A-check, B-check, A-finish, B-finish), two connections are
created, the callers receive different handles, and the pool retains only
the second handle — the first is dropped without being closed.  A
non-overlapping run of the same two calls creates exactly one connection
and hands both callers the same handle. -/
theorem overlapping_acquire_duplicates :
    (runSchedule tenDedicated1 tenDedicated1 5 {} [false, true, false, true]).created = 2 ∧
    (runSchedule tenDedicated1 tenDedicated1 5 {} [false, true, false, true]).taskA =
      CallPhase.finished 0 ∧
    (runSchedule tenDedicated1 tenDedicated1 5 {} [false, true, false, true]).taskB =
      CallPhase.finished 1 ∧
    (0 : Nat) ≠ 1 ∧
    lookupAssoc (runSchedule tenDedicated1 tenDedicated1 5 {}
      [false, true, false, true]).pool.clients (buildCacheKey tenDedicated1) = some 1 ∧
    (runSchedule tenDedicated1 tenDedicated1 5 {} [false, false, true, true]).created = 1 ∧
    (runSchedule tenDedicated1 tenDedicated1 5 {} [false, false, true, true]).taskA =
      CallPhase.finished 0 ∧
    (runSchedule tenDedicated1 tenDedicated1 5 {} [false, false, true, true]).taskB =
      CallPhase.finished 0 := by
  refine ⟨rfl, rfl, rfl, by decide, rfl, rfl, rfl, rfl⟩

/-! ### AuthGate claims -/

/-- A backing-store row whose tenant is SUSPENDED. -/
def suspendedRow : DbTenant :=
  { id := "t9", subdomain := "acme", dbType := "DEDICATED", status := "SUSPENDED",
    databaseConfig := some { dbName := some "db9", dbHost := some "h9" } }

/-- A guard input with valid credentials for a regular
(AUTHENTICATED_REQUIRED) endpoint, resolving tenant "acme" by subdomain. -/
def validGuardInput : GuardInput :=
  { accessToken := some "tok"
    decoded := some { userId := some "u1", tokenType := some "access" }
    verifyAccess := Except.ok { userId := some "u1", tokenType := some "access" }
    refreshToken := some "rt"
    verifyRefresh := Except.ok ()
    request := { host := some "acme.vritti.com" } }

/-- Counterexample to claim C1: the backing store holds tenant "acme" with
status SUSPENDED; with valid credentials the guard fails with the
not-found reason `Invalid tenant`, not with a tenant-not-active reason
carrying the status — because `getTenantInfo` queries with a
`status: 'ACTIVE'` filter and therefore never resolves a suspended
tenant. -/
theorem suspended_tenant_counterexample :
    (canActivateFull validGuardInput {} (Except.ok [suspendedRow]) 0 300000).1 =
      GuardResult.fail (AppError.unauthorized "Invalid tenant") ∧
    (canActivateFull validGuardInput {} (Except.ok [suspendedRow]) 0 300000).1 ≠
      GuardResult.fail
        (AppError.unauthorized ("Tenant is " ++ suspendedRow.status)) := by
  refine ⟨rfl, by decide⟩

/-- Claim C1 (amended): with valid credentials and a non-"cloud"
identifier, (i) when every backing-store row matching the identifier has a
non-ACTIVE status, the guard fails with the not-found reason
`Invalid tenant` (the registry only resolves ACTIVE tenants, so a
suspended tenant is indistinguishable from an unknown one at the guard);
(ii) the guard's tenant-not-active branch — whose message includes the
actual status — fires exactly when the registry hands it a record with
non-ACTIVE status, which `getTenantInfo` never produces. -/
theorem suspended_tenant_amended
    (inp : GuardInput) (st : RegState) (rows : List DbTenant) (ident : String)
    (now ttl : Int) (tok rt : String) (dec dec2 : DecodedToken) (info : TenantInfo)
    (hpub : inp.isPublic = false)
    (honb : inp.isOnboarding = false)
    (hat : inp.accessToken = some tok)
    (hdec : inp.decoded = some dec)
    (htype : dec.tokenType ≠ some "onboarding")
    (hva : inp.verifyAccess = Except.ok dec2)
    (hrt : inp.refreshToken = some rt)
    (hvr : inp.verifyRefresh = Except.ok ())
    (hres : resolveTenantIdentifier inp.request = some ident)
    (hcloud : ident ≠ "cloud")
    (hmiss : lookupCache st.cache ident = none)
    (hmatch : ∀ t ∈ rows, (t.id = ident ∨ t.subdomain = ident) → t.status ≠ "ACTIVE") :
    (canActivateFull inp st (Except.ok rows) now ttl).1 =
      GuardResult.fail (AppError.unauthorized "Invalid tenant") ∧
    (info.status ≠ "ACTIVE" →
      canActivate inp (Except.ok (some info)) =
        GuardResult.fail (AppError.unauthorized ("Tenant is " ++ info.status))) := by
  have htypeb : (dec.tokenType == some "onboarding") = false :=
    beq_eq_false_iff_ne.mpr htype
  have hcloudb : (ident == "cloud") = false := beq_eq_false_iff_ne.mpr hcloud
  have hfind : findFirstActiveTenant rows ident = none := by
    apply List.find?_eq_none.mpr
    intro t ht
    simp only [tenantMatches, Bool.and_eq_true, Bool.or_eq_true, beq_iff_eq,
      not_and]
    intro hor
    exact fun hst => hmatch t ht hor hst
  have hsteps : guardTenantSteps inp.request st (Except.ok rows) now ttl =
      (GuardResult.fail (AppError.unauthorized "Invalid tenant"),
        { st with queryCount := st.queryCount + 1 }) := by
    simp only [guardTenantSteps, hres, hcloudb, Bool.false_eq_true, if_false,
      getTenantInfo_miss_notfound st rows ident now ttl hmiss hfind]
  constructor
  · simp only [canActivateFull, hpub, Bool.false_eq_true, if_false, hat, hdec,
      honb, htypeb, hva, hrt, hvr, hsteps]
    rfl
  · intro hstat
    simp only [canActivate, canActivateInner, hpub, Bool.false_eq_true,
      if_false, hat, hdec, honb, htypeb, hva, hrt, hvr, hres, hcloudb,
      if_pos hstat]
    rfl

/-- Witness for the amended C1: the concrete suspended-tenant request of the
counterexample satisfies every hypothesis; the composed run fails with
`Invalid tenant`, and feeding the guard a SUSPENDED record directly yields
`Tenant is SUSPENDED`. -/
theorem suspended_tenant_amended_witness :
    (canActivateFull validGuardInput {} (Except.ok [suspendedRow]) 0 300000).1 =
      GuardResult.fail (AppError.unauthorized "Invalid tenant") ∧
    canActivate validGuardInput (Except.ok (some (buildInfo suspendedRow))) =
      GuardResult.fail (AppError.unauthorized
        ("Tenant is " ++ (buildInfo suspendedRow).status)) := by
  have h := suspended_tenant_amended validGuardInput {} [suspendedRow] "acme"
    0 300000 "tok" "rt"
    { userId := some "u1", tokenType := some "access" }
    { userId := some "u1", tokenType := some "access" }
    (buildInfo suspendedRow)
    rfl rfl rfl rfl (by decide) rfl rfl rfl rfl (by decide) rfl
    (by intro t ht hor; cases ht with
        | head => decide
        | tail _ ht2 => cases ht2)
  exact ⟨h.1, h.2 (by decide)⟩

/-! ### Tenant identifier resolution (claim C9) -/

/-- The resolution rule exactly as claim C9 words it: split the host
(after stripping any port) on dots; at least 3 labels → the first label is
the identifier; otherwise fall back to the `x-tenant-id` header, then the
`x-subdomain` header, null when all are absent. -/
def claimedResolveTenantIdentifier (req : HttpRequest) : Option String :=
  match jsOrStr req.host req.hostname with
  | none =>
    (match req.xTenantId with
     | some s => some s
     | none => req.xSubdomain)
  | some h =>
    let parts := jsSplit (headOrEmpty (jsSplit h ':')) '.'
    if 3 ≤ parts.length then some (headOrEmpty parts)
    else
      (match req.xTenantId with
       | some s => some s
       | none => req.xSubdomain)

/-- A request whose host has three dot-separated labels, the first of them
empty, together with an `x-tenant-id` header. -/
def headerFallbackRequest : HttpRequest :=
  { host := some ".vritti.com", xTenantId := some "acme" }

/-- Counterexample to claim C9 as stated: on host ".vritti.com" (3 labels,
first label empty) with header `x-tenant-id: acme`, the code does not use
the first label as the identifier — the empty string is falsy, so it falls
back to the header and returns "acme". -/
theorem resolve_first_label_counterexample :
    resolveTenantIdentifier headerFallbackRequest = some "acme" ∧
    claimedResolveTenantIdentifier headerFallbackRequest = some "" ∧
    resolveTenantIdentifier headerFallbackRequest ≠
      claimedResolveTenantIdentifier headerFallbackRequest := by
  refine ⟨rfl, rfl, by decide⟩

/-- The resolution rule as amended: the first label is the identifier only
when the stripped host splits into at least 3 labels and that label is
nonempty; otherwise resolution falls back to the `x-tenant-id` header, then
the `x-subdomain` header, empty header values being treated as absent. -/
def amendedResolveTenantIdentifier (req : HttpRequest) : Option String :=
  match jsOrStr req.host req.hostname with
  | none => extractFromHeaders req
  | some h =>
    let parts := jsSplit (headOrEmpty (jsSplit h ':')) '.'
    if 3 ≤ parts.length ∧ headOrEmpty parts ≠ "" then some (headOrEmpty parts)
    else extractFromHeaders req

lemma extractSubdomain_some {h s : String}
    (he : extractSubdomain (some h) = some s) :
    3 ≤ (jsSplit (headOrEmpty (jsSplit h ':')) '.').length ∧
      s = headOrEmpty (jsSplit (headOrEmpty (jsSplit h ':')) '.') := by
  by_cases h1 : h == ""
  · simp [extractSubdomain, h1] at he
  · by_cases h2 : headOrEmpty (jsSplit h ':') == ""
    · simp [extractSubdomain, h1, h2] at he
    · simp only [extractSubdomain, h1, h2, Bool.false_eq_true, if_false] at he
      by_cases h3 : (jsSplit (headOrEmpty (jsSplit h ':')) '.').length < 3
      · simp [h3] at he
      · simp only [h3, if_false] at he
        exact ⟨by omega, (Option.some_inj.mp he).symm⟩

lemma extractSubdomain_none {h : String}
    (he : extractSubdomain (some h) = none) :
    ¬(3 ≤ (jsSplit (headOrEmpty (jsSplit h ':')) '.').length ∧
      headOrEmpty (jsSplit (headOrEmpty (jsSplit h ':')) '.') ≠ "") := by
  by_cases h1 : h == ""
  · have h1e : h = "" := eq_of_beq h1
    subst h1e
    decide
  · by_cases h2 : headOrEmpty (jsSplit h ':') == ""
    · have h2e : headOrEmpty (jsSplit h ':') = "" := eq_of_beq h2
      rw [h2e]
      decide
    · simp only [extractSubdomain, h1, h2, Bool.false_eq_true, if_false] at he
      by_cases h3 : (jsSplit (headOrEmpty (jsSplit h ':')) '.').length < 3
      · intro hc
        omega
      · simp [h3] at he

/-- Claim C9 (amended): for every request, `resolveTenantIdentifier`
computes exactly the amended rule — host-label first (requiring at least 3
labels and a nonempty first label), then `x-tenant-id`, then `x-subdomain`,
with null when nothing applies. -/
theorem resolve_amended_eq (req : HttpRequest) :
    resolveTenantIdentifier req = amendedResolveTenantIdentifier req := by
  unfold resolveTenantIdentifier amendedResolveTenantIdentifier
  cases hh : jsOrStr req.host req.hostname with
  | none => rfl
  | some h =>
    dsimp only
    rcases hsub : extractSubdomain (some h) with _ | s
    · rw [if_neg (extractSubdomain_none hsub)]
    · obtain ⟨hlen, hs⟩ := extractSubdomain_some hsub
      by_cases hse : s = ""
      · have hcond : ¬(3 ≤ (jsSplit (headOrEmpty (jsSplit h ':')) '.').length ∧
            headOrEmpty (jsSplit (headOrEmpty (jsSplit h ':')) '.') ≠ "") := by
          intro hc
          exact hc.2 (by rw [← hs, hse])
        rw [if_neg hcond]
        have hsb : (s == "") = true := by rw [hse]; rfl
        simp only [hsb, if_true]
      · have hcond : 3 ≤ (jsSplit (headOrEmpty (jsSplit h ':')) '.').length ∧
            headOrEmpty (jsSplit (headOrEmpty (jsSplit h ':')) '.') ≠ "" := by
          refine ⟨hlen, ?_⟩
          rw [← hs]
          exact hse
        rw [if_pos hcond]
        have hsb : (s == "") = false := beq_false_of_ne hse
        rw [← hs]
        simp only [hsb, Bool.false_eq_true, if_false]

/-- Claim C4: `getTenant` on a fresh scope, or after `clearTenant`, fails
closed with `UnauthorizedException` (an authorization-class error, not an
internal fault), and after a successful `setTenant r` it returns exactly
`r`. -/
theorem getTenant_fail_closed (st : Option TenantInfo) (r : TenantInfo) :
    getTenant none = Except.error (AppError.unauthorized "Tenant context not set") ∧
    getTenant (clearTenant st) =
      Except.error (AppError.unauthorized "Tenant context not set") ∧
    (setTenant none r).1 = Except.ok () ∧
    getTenant (setTenant none r).2 = Except.ok r := by
  refine ⟨rfl, rfl, rfl, rfl⟩

end ApiSdk
